import Mathlib

/-!
Verification of the RoftX backend against its specification.

The development shallowly embeds the two non-trivial pieces of logic of the
service: the response-text extraction / generation proxy of
`src/roftx_backend/server.js` and `src/unnamed/part_000` (endpoint
`POST /api/gemini`), and the Google-identity reconciliation of
`POST /api/auth/google`.  JSON values are modelled by an inductive type,
JavaScript truthiness and property access are modelled explicitly, and a
property access that would raise a `TypeError` (access on `null`) is
modelled with `Except`.
-/

namespace RoftX

/-- Structured data (decoded JSON), the type of provider envelopes and
request bodies.  `null` is JSON null; JavaScript `undefined` is represented
by `Option.none` at use sites. -/
inductive Json where
  | null : Json
  | bool : Bool → Json
  | num : Int → Json
  | str : String → Json
  | arr : List Json → Json
  | obj : List (String × Json) → Json

/-- JavaScript truthiness of a decoded JSON value: `null`, `false`, `0` and
`""` are falsy; arrays and objects are always truthy. -/
def truthy : Json → Bool
  | Json.null => false
  | Json.bool b => b
  | Json.num n => n != 0
  | Json.str s => s != ""
  | Json.arr _ => true
  | Json.obj _ => true

/-- `typeof x === 'object'` for a truthy `x` holds of objects and arrays
(`null` is also `'object'` in JavaScript but is excluded by truthiness at
every use site in the source). -/
def isObjLike : Json → Bool
  | Json.obj _ => true
  | Json.arr _ => true
  | Json.null => true
  | _ => false

/-- Property access `j.k` on a value that is known not to be `null`:
returns the field of an object, `undefined` (`none`) otherwise.  Matches
JavaScript semantics for every non-null receiver (numbers, strings,
booleans and arrays have no such own property in the source's uses). -/
def getF : Json → String → Option Json
  | Json.obj kvs, k => kvs.lookup k
  | _, _ => none

/-- Property access `j.k` on a value that may be `null`: raises a
`TypeError` (modelled as `Except.error ()`) on `null`, otherwise behaves
like `getF`. -/
def getFx : Json → String → Except Unit (Option Json)
  | Json.null, _ => Except.error ()
  | j, k => Except.ok (getF j k)

/-- Index access `j[0]` for a truthy receiver: first array element, the
`"0"` field of an object, the first character of a non-empty string,
`undefined` otherwise. -/
def jsIndex : Json → Option Json
  | Json.arr (x :: _) => some x
  | Json.obj kvs => kvs.lookup "0"
  | Json.str s =>
      if h : s.data = [] then none
      else some (Json.str (String.mk [s.data.head (by simpa using h)]))
  | _ => none

/-- Truthiness of `s.trim()` in the source: `s.trim()` is a non-empty
string exactly when `s` has some non-whitespace character.  The source
only ever uses `.trim()` in boolean position and always returns the
original (untrimmed) string, so blankness is all that is needed. -/
def jsBlank (s : String) : Bool :=
  s.data.all fun c => c.isWhitespace

/-- Sequencing of the extraction rules of
`extractTextFromAnthropicResponse` (server.js lines 128-177): a raised
`TypeError` propagates, an explicit `return` of a value stops, `ok none`
falls through to the next rule. -/
def orE (a b : Except Unit (Option Json)) : Except Unit (Option Json) :=
  match a with
  | Except.error e => Except.error e
  | Except.ok (some v) => Except.ok (some v)
  | Except.ok none => b

/-- server.js lines 132-139: the `completion` patterns.  A `completion`
string with non-blank trim is returned; a `completion` object with a
string `content` (non-blank trim) or a non-empty `content` array whose
first element has a string `text` field (returned without a trim check)
is returned.  Accessing `.text` of a `null` first element raises. -/
def ruleCompletion (data : Json) : Except Unit (Option Json) :=
  match getF data "completion" with
  | some (Json.str s) =>
      if !jsBlank s then Except.ok (some (Json.str s)) else Except.ok none
  | some c =>
      if truthy c && isObjLike c then
        match getF c "content" with
        | some (Json.str s) =>
            if !jsBlank s then Except.ok (some (Json.str s)) else Except.ok none
        | some (Json.arr (x :: _)) =>
            match getFx x "text" with
            | Except.error e => Except.error e
            | Except.ok (some (Json.str s)) => Except.ok (some (Json.str s))
            | Except.ok _ => Except.ok none
        | _ => Except.ok none
      else Except.ok none
  | none => Except.ok none

/-- server.js lines 146-148: the nested descent
`content[0].content[0].text`, returned when it is a string, without a
trim check; raises when `content[0].content[0]` is `null`. -/
def contentNested (x : Json) : Except Unit (Option Json) :=
  match getF x "content" with
  | some (Json.arr (y :: _)) =>
      match getFx y "text" with
      | Except.error e => Except.error e
      | Except.ok (some (Json.str s2)) => Except.ok (some (Json.str s2))
      | Except.ok _ => Except.ok none
  | _ => Except.ok none

/-- server.js lines 141-149: the top-level `content` array pattern.
`content[0].text` is returned when it is a string with non-blank trim;
otherwise the nested descent `contentNested` runs.  Accessing `.text` of
a `null` first element raises. -/
def ruleContent (data : Json) : Except Unit (Option Json) :=
  match getF data "content" with
  | some (Json.arr (x :: _)) =>
      match getFx x "text" with
      | Except.error e => Except.error e
      | Except.ok (some (Json.str s)) =>
          if !jsBlank s then Except.ok (some (Json.str s)) else contentNested x
      | Except.ok _ => contentNested x
  | _ => Except.ok none

/-- `data.messages.find(m => m.role === 'assistant')`: scans the list,
raising on a `null` element (JavaScript `m.role` on `null` throws). -/
def findAssistant : List Json → Except Unit (Option Json)
  | [] => Except.ok none
  | Json.null :: _ => Except.error ()
  | m :: rest =>
      match getF m "role" with
      | some (Json.str r) =>
          if r = "assistant" then Except.ok (some m) else findAssistant rest
      | _ => findAssistant rest

/-- server.js line 156: the fallback of the `messages` pattern —
`msg.content` itself, when it is a string with non-blank trim. -/
def msgContentString (mc : Json) : Except Unit (Option Json) :=
  match mc with
  | Json.str s2 =>
      if !jsBlank s2 then Except.ok (some (Json.str s2)) else Except.ok none
  | _ => Except.ok none

/-- server.js lines 151-158 continued: the `messages` pattern.  Prefers
the first assistant entry, else the first entry; takes `content.text`
when it is a string with non-blank trim, else `content` itself when it
is a string with non-blank trim (`msgContentString`). -/
def ruleMessages (data : Json) : Except Unit (Option Json) :=
  match getF data "messages" with
  | some (Json.arr (m0 :: rest)) =>
      match findAssistant (m0 :: rest) with
      | Except.error e => Except.error e
      | Except.ok found =>
          let msg := found.getD m0
          if truthy msg then
            match getF msg "content" with
            | some mc =>
                if truthy mc then
                  match getF mc "text" with
                  | some (Json.str s) =>
                      if !jsBlank s then Except.ok (some (Json.str s))
                      else msgContentString mc
                  | _ => msgContentString mc
                else Except.ok none
            | none => Except.ok none
          else Except.ok none
  | _ => Except.ok none

/-- server.js line 161: the `output_text` fallback key. -/
def ruleOutputText (data : Json) : Except Unit (Option Json) :=
  match getF data "output_text" with
  | some (Json.str s) =>
      if !jsBlank s then Except.ok (some (Json.str s)) else Except.ok none
  | _ => Except.ok none

/-- server.js line 162: the top-level `text` fallback key. -/
def ruleTextField (data : Json) : Except Unit (Option Json) :=
  match getF data "text" with
  | some (Json.str s) =>
      if !jsBlank s then Except.ok (some (Json.str s)) else Except.ok none
  | _ => Except.ok none

/-- server.js lines 164-174: the Gemini-like `candidates` pattern.  Every
level of access is truthiness-guarded by the source, so this rule cannot
raise; it returns `parts[0].text` whatever that is (`none` models the
JavaScript `return undefined`, observationally equal to the final
`return null`). -/
def ruleCandidates (data : Json) : Except Unit (Option Json) :=
  match getF data "candidates" with
  | some (Json.arr (cand :: _)) =>
      if truthy cand then
        match getF cand "content" with
        | some cj =>
            if truthy cj then
              match getF cj "parts" with
              | some (Json.arr (p0 :: _)) =>
                  if truthy p0 then Except.ok (getF p0 "text") else Except.ok none
              | _ => Except.ok none
            else Except.ok none
        | none => Except.ok none
      else Except.ok none
  | _ => Except.ok none

/-- server.js lines 128-177, `extractTextFromAnthropicResponse`: a falsy
envelope returns `null`; otherwise the rules run in source order and the
first explicit `return` wins; `Except.ok none` is the final
`return null`. -/
def extractTextFromAnthropicResponse (data : Json) : Except Unit (Option Json) :=
  if truthy data then
    orE (ruleCompletion data) (orE (ruleContent data) (orE (ruleMessages data)
      (orE (ruleOutputText data) (orE (ruleTextField data) (ruleCandidates data)))))
  else Except.ok none

/-- server.js line 310: `extractTextFromAnthropicResponse(data) || ''` —
the generated text of the endpoint; a falsy extraction result (including
`null`, `undefined` and the empty string) becomes `''`. -/
def generatedText (data : Json) : Except Unit Json :=
  match extractTextFromAnthropicResponse data with
  | Except.error e => Except.error e
  | Except.ok none => Except.ok (Json.str "")
  | Except.ok (some j) => Except.ok (if truthy j then j else Json.str "")

/-- server.js lines 313-326: the Gemini-compatible wrapper returned on
success, carrying the extracted text both at top level and nested in the
`candidates` structure, plus the raw provider envelope. -/
def buildGeminiResponse (generated : Json) (raw : Json) : Json :=
  Json.obj
    [("candidates", Json.arr
        [Json.obj
          [("content", Json.obj
            [("parts", Json.arr [Json.obj [("text", generated)]])])]]),
     ("text", generated),
     ("raw", raw)]

/-- `j[0]` restricted to arrays: first element or `undefined`. -/
def jsHead : Json → Option Json
  | Json.arr (x :: _) => some x
  | _ => none

/-- server.js line 300: the 502 literal of the decode-failure handler —
the `ProviderProtocolError` of the spec.  This response is unreachable:
see `handleClaudeResponse`. -/
def protocolErrorResponse : Nat × Json :=
  (502, Json.obj [("error", Json.obj
    [("message", Json.str "Invalid response from model provider.")])])

/-- server.js lines 303-307: the 502 returned for a non-ok provider
status, forwarding the provider's error body as `details`. -/
def providerErrorResponse (data : Json) : Nat × Json :=
  (502, Json.obj [("error", Json.obj
    [("message", Json.str "Model provider error"), ("details", data)])])

/-- server.js lines 330-333: the catch-all 500 of the endpoint. -/
def internalErrorResponse : Nat × Json :=
  (500, Json.obj [("error", Json.obj
    [("message", Json.str "Internal server error while contacting AI model.")])])

/-- server.js lines 292-329: handling of the provider HTTP response in
`POST /api/gemini`.  `decoded = none` models a body that failed JSON
decoding.  When `claudeResp.json()` rejects, the body has already been
consumed, so the second body read `claudeResp.text()` at line 298 throws
(`TypeError`, body unusable / already used, in both undici and
node-fetch); that error propagates to the endpoint's outer catch, which
returns the 500 internal error — the 502 `protocolErrorResponse` at
line 300 is never reached.  The second component records whether the
text-extraction helper was invoked. -/
def handleClaudeResponse (respOk : Bool) (decoded : Option Json) :
    (Nat × Json) × Bool :=
  match decoded with
  | none => (internalErrorResponse, false)
  | some data =>
      if respOk then
        match generatedText data with
        | Except.error _ => (internalErrorResponse, true)
        | Except.ok t => ((200, buildGeminiResponse t data), true)
      else (providerErrorResponse data, false)

/-! ## The `POST /api/gemini` pipeline of `src/unnamed/part_000`
(request validation, tier selection and provider-status mapping). -/

/-- part_000 lines 149-152: the 400 for a missing payload or missing
`contents`. -/
def invalidPayloadResponse : Nat × Json :=
  (400, Json.obj [("error", Json.str "Invalid request payload")])

/-- part_000 lines 154-157: the 400 for a malformed `contents` structure
(including a falsy — in particular empty — `text`). -/
def invalidStructureResponse : Nat × Json :=
  (400, Json.obj [("error", Json.str "Invalid content structure")])

/-- part_000 lines 164-167: the 400 for an over-length prompt. -/
def promptTooLongResponse : Nat × Json :=
  (400, Json.obj [("error", Json.str "Prompt exceeds maximum length")])

/-- part_000 lines 149-160: validation of the request body down to the
prompt `contents[0].parts[0].text`; every step of
`!req.body.contents[0] || !...parts || !...parts[0] || !...text`
rejects a missing or falsy value with a 400 before any network call. -/
def geminiExtractPrompt (body : Json) : Except (Nat × Json) Json :=
  if !truthy body then Except.error invalidPayloadResponse else
  match getF body "contents" with
  | none => Except.error invalidPayloadResponse
  | some contents =>
    if !truthy contents then Except.error invalidPayloadResponse else
    match jsIndex contents with
    | none => Except.error invalidStructureResponse
    | some c0 =>
      if !truthy c0 then Except.error invalidStructureResponse else
      match getF c0 "parts" with
      | none => Except.error invalidStructureResponse
      | some parts =>
        if !truthy parts then Except.error invalidStructureResponse else
        match jsIndex parts with
        | none => Except.error invalidStructureResponse
        | some p0 =>
          if !truthy p0 then Except.error invalidStructureResponse else
          match getF p0 "text" with
          | none => Except.error invalidStructureResponse
          | some t =>
            if !truthy t then Except.error invalidStructureResponse else
            Except.ok t

/-- `prompt.length > n` in JavaScript: defined for strings and arrays,
`undefined > n` is false for everything else. -/
def jsLengthGt (j : Json) (n : Nat) : Bool :=
  match j with
  | Json.str s => decide (n < s.length)
  | Json.arr xs => decide (n < xs.length)
  | _ => false

/-- part_000 lines 149-167: full request validation of `POST /api/gemini`:
structure checks, then the 100000-character prompt-length bound.  An `ok`
result means control reaches the provider `fetch`. -/
def geminiValidate (body : Json) : Except (Nat × Json) Json :=
  match geminiExtractPrompt body with
  | Except.error e => Except.error e
  | Except.ok prompt =>
      if jsLengthGt prompt 100000 then Except.error promptTooLongResponse
      else Except.ok prompt

/-- Number of provider-transport invocations made by `POST /api/gemini`
of part_000 for a given body: the `fetch` at line 196 runs exactly when
validation passes. -/
def networkCalls (body : Json) : Nat :=
  match geminiValidate body with
  | Except.ok _ => 1
  | Except.error _ => 0

/-- A well-formed Gemini-style body whose prompt is `s`. -/
def mkPromptEnv (s : String) : Json :=
  Json.obj [("contents", Json.arr
    [Json.obj [("parts", Json.arr [Json.obj [("text", Json.str s)]])]])]

/-- part_000 lines 170-174: the static tier table mapping tier names to
provider model identifiers. -/
def modelMap : List (String × String) :=
  [("haiku", "claude-3-5-haiku-20241022"),
   ("sonnet", "claude-3-5-sonnet-20241022"),
   ("haiku-legacy", "claude-3-haiku-20240307")]

/-- part_000 lines 177-181: the static tier table mapping tier names to
token limits. -/
def maxTokensMap : List (String × Nat) :=
  [("haiku", 2048), ("sonnet", 4096), ("haiku-legacy", 1024)]

/-- part_000 line 161: `req.body.model || 'haiku'` — an absent or falsy
tier defaults to `haiku`. -/
def requestedModel (tier : Option String) : String :=
  match tier with
  | some s => if s != "" then s else "haiku"
  | none => "haiku"

/-- The result of a JavaScript bracket lookup `o[k]` on an object
literal: an own property, an inherited `Object.prototype` member (a
function or accessor, not representable as JSON and hence carried
opaquely by name), or `undefined`. -/
inductive JsLookupResult (α : Type) where
  | ownValue : α → JsLookupResult α
  | protoMember : String → JsLookupResult α
  | undef : JsLookupResult α
deriving DecidableEq

/-- The member names every object literal inherits from
`Object.prototype`: a bracket lookup that misses the own properties
still hits these, and each of them is a truthy function or object. -/
def objectPrototypeKeys : List String :=
  ["constructor", "hasOwnProperty", "isPrototypeOf", "propertyIsEnumerable",
   "toLocaleString", "toString", "valueOf", "__proto__", "__defineGetter__",
   "__defineSetter__", "__lookupGetter__", "__lookupSetter__"]

/-- JavaScript bracket lookup `o[k]` on an object literal `o` given as an
association list: own property first, else the inherited
`Object.prototype` member, else `undefined`. -/
def jsObjLookup {α : Type} (kvs : List (String × α)) (k : String) :
    JsLookupResult α :=
  match kvs.lookup k with
  | some v => JsLookupResult.ownValue v
  | none =>
      if objectPrototypeKeys.contains k then JsLookupResult.protoMember k
      else JsLookupResult.undef

/-- `a || b` over bracket-lookup results, with `tr` the truthiness of an
own value: `undefined` and falsy own values fall back to `b`; an
inherited `Object.prototype` member is always truthy and never falls
back. -/
def orDefault {α : Type} (a b : JsLookupResult α) (tr : α → Bool) :
    JsLookupResult α :=
  match a with
  | JsLookupResult.ownValue v =>
      if tr v then JsLookupResult.ownValue v else b
  | JsLookupResult.protoMember m => JsLookupResult.protoMember m
  | JsLookupResult.undef => b

/-- part_000 line 183: `modelMap[requestedModel] || modelMap['haiku']`,
with JavaScript bracket-lookup semantics (prototype chain included). -/
def selectedModel (tier : Option String) : JsLookupResult String :=
  orDefault (jsObjLookup modelMap (requestedModel tier))
    (jsObjLookup modelMap "haiku") (fun s => s != "")

/-- part_000 line 184: `maxTokensMap[requestedModel] ||
maxTokensMap['haiku']`, with JavaScript bracket-lookup semantics. -/
def selectedMaxTokens (tier : Option String) : JsLookupResult Nat :=
  orDefault (jsObjLookup maxTokensMap (requestedModel tier))
    (jsObjLookup maxTokensMap "haiku") (fun n => n != 0)

/-- The typed failure taxonomy of the spec for provider-status mapping
(spec section 4.3 step 6), as realized by the branch structure of
part_000 lines 219-228. -/
inductive ProviderFailure where
  | RateLimited : ProviderFailure
  | ProviderAuthError : ProviderFailure
  | InvalidRequest : ProviderFailure
  | ProviderError : Nat → Json → ProviderFailure

/-- part_000 line 228: `data.error?.message || 'AI service error'`,
given the already-evaluated `data.error` (that access is modelled with
throwing semantics in `handleProviderErr`, since line 213 evaluates it
first).  `?.` yields `undefined` on a nullish error value, and a falsy
message falls back to the default. -/
def providerErrMsg (err : Option Json) : Json :=
  match err with
  | some e =>
      match getF e "message" with
      | some m => if truthy m then m else Json.str "AI service error"
      | none => Json.str "AI service error"
  | none => Json.str "AI service error"

/-- Classification of a failing provider status by the branch structure
of part_000 lines 219-228, given the decoded body's already-evaluated
`error` field. -/
def mapProviderStatus (status : Nat) (err : Option Json) : ProviderFailure :=
  if status = 429 then ProviderFailure.RateLimited
  else if status = 401 then ProviderFailure.ProviderAuthError
  else if status = 400 then ProviderFailure.InvalidRequest
  else ProviderFailure.ProviderError status (providerErrMsg err)

/-- The HTTP serialization each branch of part_000 lines 219-228 sends. -/
def providerFailureResponse : ProviderFailure → Nat × Json
  | ProviderFailure.RateLimited =>
      (429, Json.obj [("error",
        Json.str "Rate limit exceeded. Please try again in a moment.")])
  | ProviderFailure.ProviderAuthError =>
      (500, Json.obj [("error",
        Json.str "API authentication error. Please contact support.")])
  | ProviderFailure.InvalidRequest =>
      (400, Json.obj [("error",
        Json.str "Invalid request format. Please try again.")])
  | ProviderFailure.ProviderError s payload =>
      (s, Json.obj [("error", payload)])

/-- part_000 lines 208-228: the failing-status branch of
`POST /api/gemini`.  Before any status comparison, line 213 evaluates
`data.error` inside the `console.error` object literal; on a decoded
body of JSON `null` that access throws a `TypeError`, which propagates
to the route's catch (lines 256-270, an HTTP 500) — modelled as
`Except.error`.  For a non-null body the if/else chain over the status
code runs as written. -/
def handleProviderErr (status : Nat) (data : Json) :
    Except Unit (Nat × Json) :=
  match getFx data "error" with
  | Except.error e => Except.error e
  | Except.ok err =>
      if status = 429 then
        Except.ok (429, Json.obj [("error",
          Json.str "Rate limit exceeded. Please try again in a moment.")])
      else if status = 401 then
        Except.ok (500, Json.obj [("error",
          Json.str "API authentication error. Please contact support.")])
      else if status = 400 then
        Except.ok (400, Json.obj [("error",
          Json.str "Invalid request format. Please try again.")])
      else Except.ok (status, Json.obj [("error", providerErrMsg err)])

/-- `claudeResponse.ok` of the fetch API: status in the 2xx range. -/
def claudeOk (status : Nat) : Bool :=
  decide (200 ≤ status) && decide (status < 300)

/-! ## The `POST /api/auth/google` workflow (server.js lines 186-222,
part_000 lines 100-144): token verification, then select → insert/update
on the `users` table. -/

/-- A row of the `users` table.  `created_at` is filled by the store on
insert (column default), never listed in the source's UPDATE. -/
structure UserRow where
  google_id : String
  email : String
  full_name : String
  given_name : String
  family_name : String
  picture_url : String
  locale : String
  last_login : Nat
  created_at : Nat
deriving DecidableEq

/-- The claim fields destructured from `ticket.getPayload()` at
server.js line 197 / part_000 line 119. -/
structure GoogleClaims where
  sub : String
  email : String
  name : String
  picture : String
  locale : String
  given_name : String
  family_name : String
deriving DecidableEq

/-- `SELECT * FROM users WHERE google_id = $1`. -/
def selectUsers (db : List UserRow) (g : String) : List UserRow :=
  db.filter fun r => r.google_id == g

/-- `INSERT INTO users (google_id, email, full_name, given_name,
family_name, picture_url, locale, last_login) VALUES (..., NOW())`:
appends a fresh row; the store fills `created_at` with the current time
(column default). -/
def insertUser (db : List UserRow) (r : UserRow) : List UserRow :=
  db ++ [r]

/-- `UPDATE users SET last_login = NOW(), full_name = $2,
picture_url = $3 WHERE google_id = $1` (server.js line 211, part_000
line 132): only those three columns change, and only on matching rows. -/
def updateUser (db : List UserRow) (g : String) (now : Nat)
    (fn pu : String) : List UserRow :=
  db.map fun r =>
    if r.google_id == g then
      { r with last_login := now, full_name := fn, picture_url := pu }
    else r

/-- The row the INSERT of server.js lines 203-207 materializes from the
verified claims at time `now`. -/
def rowOfClaims (c : GoogleClaims) (now : Nat) : UserRow :=
  { google_id := c.sub, email := c.email, full_name := c.name,
    given_name := c.given_name, family_name := c.family_name,
    picture_url := c.picture, locale := c.locale,
    last_login := now, created_at := now }

/-- The verification failure taxonomy of spec section 4.1. -/
inductive VerifyFailure where
  | InvalidToken : VerifyFailure
  | UntrustedIssuer : VerifyFailure
  | ExpiredToken : VerifyFailure
  | AudienceMismatch : VerifyFailure
deriving DecidableEq

/-- An identity assertion as seen by the verifier: parseability,
signature/issuer validity, expiry instant, audience claim, and the
profile claims it carries. -/
structure Assertion where
  wellFormed : Bool
  issuerTrusted : Bool
  expiry : Nat
  audience : String
  claims : GoogleClaims

/-- Modelled from the spec: the internals of
`googleClient.verifyIdToken` (google-auth-library) are not part of this
repository; spec section 4.1 specifies that verification validates
signature, issuer, audience and expiry, failing with `InvalidToken` for
unparseable input, `UntrustedIssuer` for signature/issuer mismatch,
`ExpiredToken` when the validity window has passed, and
`AudienceMismatch` when the audience claim differs from the configured
client id. -/
def verifyIdToken (a : Assertion) (now : Nat) (expectedAud : String) :
    Except VerifyFailure GoogleClaims :=
  if !a.wellFormed then Except.error VerifyFailure.InvalidToken
  else if !a.issuerTrusted then Except.error VerifyFailure.UntrustedIssuer
  else if a.expiry < now then Except.error VerifyFailure.ExpiredToken
  else if a.audience != expectedAud then Except.error VerifyFailure.AudienceMismatch
  else Except.ok a.claims

/-- The primitive store operations issued by `POST /api/auth/google`. -/
inductive StoreOp where
  | select : String → StoreOp
  | insert : UserRow → StoreOp
  | update : String → Nat → String → String → StoreOp
deriving DecidableEq

/-- part_000 lines 100-144: verify the token (a failure returns 401
before any database interaction), then SELECT by `google_id` and either
INSERT a fresh row or UPDATE `last_login`, `full_name`, `picture_url`.
Returns the typed outcome, the resulting table state, and the store
operations performed. -/
def authGoogle (a : Assertion) (now : Nat) (aud : String)
    (db : List UserRow) :
    Except VerifyFailure UserRow × List UserRow × List StoreOp :=
  match verifyIdToken a now aud with
  | Except.error e => (Except.error e, db, [])
  | Except.ok c =>
      if (selectUsers db c.sub).isEmpty then
        let row := rowOfClaims c now
        (Except.ok row, insertUser db row,
         [StoreOp.select c.sub, StoreOp.insert row])
      else
        let db1 := updateUser db c.sub now c.name c.picture
        (Except.ok ((selectUsers db1 c.sub).headD (rowOfClaims c now)), db1,
         [StoreOp.select c.sub, StoreOp.update c.sub now c.name c.picture])

/-- Step 1 of one reconciliation as the source performs it: the SELECT,
observing whether the subject is fresh (`true` = no row yet). -/
def reconcileCheck (db : List UserRow) (g : String) : Bool :=
  (selectUsers db g).isEmpty

/-- Step 2 of one reconciliation as the source performs it: the write
chosen from the earlier SELECT observation — INSERT when the subject
looked fresh, UPDATE otherwise.  The SELECT and the write are two
separate store calls in the source (server.js lines 199-215), not one
conditional upsert. -/
def reconcileWrite (sawFresh : Bool) (db : List UserRow)
    (c : GoogleClaims) (now : Nat) : List UserRow :=
  if sawFresh then insertUser db (rowOfClaims c now)
  else updateUser db c.sub now c.name c.picture

/-- One reconciliation run serially: write immediately after the
select. -/
def serialReconcile (c : GoogleClaims) (now : Nat)
    (db : List UserRow) : List UserRow :=
  reconcileWrite (reconcileCheck db c.sub) db c now

/-- Two reconciliations of the same subject whose SELECT steps both run
before either write — a legal interleaving of the two-call sequence the
source issues. -/
def interleavedReconcile (c : GoogleClaims) (now : Nat)
    (db : List UserRow) : List UserRow :=
  let sawA := reconcileCheck db c.sub
  let sawB := reconcileCheck db c.sub
  let db1 := reconcileWrite sawA db c now
  reconcileWrite sawB db1 c now

/-- A concrete claims value for counterexample runs. -/
def demoClaims : GoogleClaims :=
  { sub := "sub-1", email := "u@example.com", name := "U",
    picture := "p", locale := "en", given_name := "G", family_name := "F" }

/-! ## Absence of JSON `null` — sufficient condition for the extraction
helper never to raise. -/

mutual

/-- `j` contains no JSON `null` anywhere. -/
def nullFree : Json → Bool
  | Json.null => false
  | Json.bool _ => true
  | Json.num _ => true
  | Json.str _ => true
  | Json.arr xs => nullFreeList xs
  | Json.obj kvs => nullFreeKVs kvs

/-- Every element of the list is `nullFree`. -/
def nullFreeList : List Json → Bool
  | [] => true
  | x :: xs => nullFree x && nullFreeList xs

/-- Every value of the association list is `nullFree`. -/
def nullFreeKVs : List (String × Json) → Bool
  | [] => true
  | kv :: kvs => nullFree kv.2 && nullFreeKVs kvs

end

/-- Whether an extraction outcome is a normal return (no raise). -/
def isOkE (e : Except Unit (Option Json)) : Bool :=
  match e with
  | Except.ok _ => true
  | Except.error _ => false

/-- An envelope on which an early rule matches with an empty string while
a later rule would yield `"x"`: `completion.content[0].text` is `""`
(returned by server.js line 137 without a trim check), preempting the
top-level `text` key. -/
def preemptEnv : Json :=
  Json.obj
    [("completion", Json.obj
        [("content", Json.arr [Json.obj [("text", Json.str "")]])]),
     ("text", Json.str "x")]

/-- A 100001-character prompt, exceeding the bound of part_000 line 164. -/
def bigPrompt : String :=
  String.mk (List.replicate 100001 'a')

/-- The columns of a user row that the UPDATE of the source never
touches: `email`, `given_name`, `family_name`, `locale`, `created_at`. -/
def frameProj (r : UserRow) : String × String × String × String × Nat :=
  (r.email, r.given_name, r.family_name, r.locale, r.created_at)

/-- A concrete user row for witness runs. -/
def demoRow : UserRow :=
  rowOfClaims demoClaims 0

/-- A concrete assertion, expired at any time past 3. -/
def demoAssertion : Assertion :=
  { wellFormed := true, issuerTrusted := true, expiry := 3,
    audience := "client-1", claims := demoClaims }

/-! ## Helper lemmas: the extraction helper cannot raise on an envelope
containing no JSON `null`. -/

theorem nullFree_ne_null {j : Json} (h : nullFree j = true) : j ≠ Json.null := by
  intro e; subst e; simp [nullFree] at h

theorem nullFreeKVs_lookup {kvs : List (String × Json)} {k : String} {v : Json}
    (h : nullFreeKVs kvs = true) (hv : kvs.lookup k = some v) : nullFree v = true := by
  induction kvs with
  | nil => simp [List.lookup] at hv
  | cons kv rest ih =>
      obtain ⟨a, b⟩ := kv
      simp [nullFreeKVs] at h
      rw [List.lookup] at hv
      by_cases hk : k == a
      · rw [hk] at hv
        simp at hv
        subst hv
        exact h.1
      · rw [Bool.not_eq_true] at hk
        rw [hk] at hv
        simp at hv
        exact ih h.2 hv

theorem nullFree_getF {j : Json} {k : String} {v : Json}
    (h : nullFree j = true) (hv : getF j k = some v) : nullFree v = true := by
  cases j <;> simp [getF] at hv
  case obj kvs => exact nullFreeKVs_lookup (by simpa [nullFree] using h) hv

theorem nullFreeList_mem {xs : List Json} {x : Json}
    (h : nullFreeList xs = true) (hx : x ∈ xs) : nullFree x = true := by
  induction xs with
  | nil => simp at hx
  | cons y ys ih =>
      simp [nullFreeList] at h
      rcases List.mem_cons.mp hx with e | m
      · subst e; exact h.1
      · exact ih h.2 m

theorem nullFree_arr {xs : List Json} (h : nullFree (Json.arr xs) = true) :
    nullFreeList xs = true := by
  simpa [nullFree] using h

theorem getFx_of_nullFree {j : Json} (k : String) (h : nullFree j = true) :
    getFx j k = Except.ok (getF j k) := by
  cases j
  · simp [nullFree] at h
  all_goals rfl

theorem getFx_of_ne {j : Json} (k : String) (h : j ≠ Json.null) :
    getFx j k = Except.ok (getF j k) := by
  cases j
  · exact absurd rfl h
  all_goals rfl

theorem findAssistant_ok {ms : List Json} (h : nullFreeList ms = true) :
    isOkE (findAssistant ms) = true := by
  induction ms with
  | nil => rfl
  | cons m rest ih =>
      simp [nullFreeList] at h
      obtain ⟨hm, hr⟩ := h
      cases m with
      | null => simp [nullFree] at hm
      | bool b => simp only [findAssistant, getF]; exact ih hr
      | num n => simp only [findAssistant, getF]; exact ih hr
      | str s => simp only [findAssistant, getF]; exact ih hr
      | arr xs => simp only [findAssistant, getF]; exact ih hr
      | obj kvs =>
          rw [findAssistant]
          case x_1 => simp
          rcases hrl : getF (Json.obj kvs) "role" with _ | rv
          · simp [hrl]; exact ih hr
          · cases rv <;> simp [hrl] <;> try exact ih hr
            case str r =>
              by_cases ha : r = "assistant" <;> simp [ha, isOkE]
              exact ih hr

theorem isOkE_ite {c : Prop} [Decidable c] {a b : Except Unit (Option Json)}
    (ha : isOkE a = true) (hb : isOkE b = true) :
    isOkE (if c then a else b) = true := by
  split <;> assumption

theorem ruleCompletion_ok {data : Json} (h : nullFree data = true) :
    isOkE (ruleCompletion data) = true := by
  unfold ruleCompletion
  rcases hc : getF data "completion" with _ | c
  · rfl
  · have hcn : nullFree c = true := nullFree_getF h hc
    cases c with
    | null => simp [nullFree] at hcn
    | bool b => simp [truthy, isObjLike, isOkE]
    | num n => simp [truthy, isObjLike, isOkE]
    | str s => by_cases hb : jsBlank s <;> simp [hb, isOkE]
    | arr xs => simp [truthy, isObjLike, getF, isOkE]
    | obj kvs =>
        simp only [truthy, isObjLike, Bool.and_self, if_true]
        rcases hcc : getF (Json.obj kvs) "content" with _ | cc
        · simp [hcc, isOkE]
        · have hccn : nullFree cc = true := nullFree_getF hcn hcc
          cases cc with
          | str s => by_cases hb : jsBlank s <;> simp [hcc, hb, isOkE]
          | arr ys =>
              cases ys with
              | nil => simp [hcc, isOkE]
              | cons y yt =>
                  have hy : nullFree y = true :=
                    nullFreeList_mem (nullFree_arr hccn) (by simp)
                  simp only [getFx_of_nullFree "text" hy]
                  rcases ht : getF y "text" with _ | t
                  · simp [ht, isOkE]
                  · cases t <;> simp [ht, isOkE]
          | null => simp [nullFree] at hccn
          | bool b => simp [hcc, isOkE]
          | num n => simp [hcc, isOkE]
          | obj kvs2 => simp [hcc, isOkE]

theorem contentNested_ok {x : Json} (hx : nullFree x = true) :
    isOkE (contentNested x) = true := by
  unfold contentNested
  rcases hcc : getF x "content" with _ | cc
  · rfl
  · have hccn : nullFree cc = true := nullFree_getF hx hcc
    cases cc with
    | arr ys =>
        cases ys with
        | nil => simp [isOkE]
        | cons y yt =>
            have hy : nullFree y = true :=
              nullFreeList_mem (nullFree_arr hccn) (by simp)
            simp only [getFx_of_nullFree "text" hy]
            rcases ht : getF y "text" with _ | t
            · simp [ht, isOkE]
            · cases t <;> simp [ht, isOkE]
    | null => simp [nullFree] at hccn
    | bool b => simp [isOkE]
    | num n => simp [isOkE]
    | str s => simp [isOkE]
    | obj kvs => simp [isOkE]

theorem ruleContent_ok {data : Json} (h : nullFree data = true) :
    isOkE (ruleContent data) = true := by
  unfold ruleContent
  rcases hc : getF data "content" with _ | c
  · rfl
  · have hcn : nullFree c = true := nullFree_getF h hc
    cases c with
    | arr xs =>
        cases xs with
        | nil => simp [isOkE]
        | cons x xt =>
            have hx : nullFree x = true :=
              nullFreeList_mem (nullFree_arr hcn) (by simp)
            simp only [getFx_of_nullFree "text" hx]
            rcases ht : getF x "text" with _ | t
            · simp [ht]
              exact contentNested_ok hx
            · cases t <;> simp [ht] <;>
                first
                | exact contentNested_ok hx
                | exact isOkE_ite rfl (contentNested_ok hx)
    | null => simp [nullFree] at hcn
    | bool b => simp [isOkE]
    | num n => simp [isOkE]
    | str s => simp [isOkE]
    | obj kvs => simp [isOkE]

theorem msgContentString_ok (mc : Json) : isOkE (msgContentString mc) = true := by
  unfold msgContentString
  cases mc <;> simp [isOkE]
  exact isOkE_ite rfl rfl

theorem ruleMessages_ok {data : Json} (h : nullFree data = true) :
    isOkE (ruleMessages data) = true := by
  unfold ruleMessages
  rcases hc : getF data "messages" with _ | c
  · rfl
  · have hcn : nullFree c = true := nullFree_getF h hc
    cases c with
    | arr ms =>
        cases ms with
        | nil => simp [isOkE]
        | cons m0 rest =>
            have hms : nullFreeList (m0 :: rest) = true := nullFree_arr hcn
            rcases hfa : findAssistant (m0 :: rest) with e | found
            · have := findAssistant_ok hms
              rw [hfa] at this
              simp [isOkE] at this
            · simp only [hfa]
              by_cases hm : truthy (found.getD m0)
              · simp only [hm, if_true]
                rcases hmc : getF (found.getD m0) "content" with _ | mc
                · simp [isOkE]
                · by_cases hmt : truthy mc
                  · simp only [hmt, if_true]
                    rcases htx : getF mc "text" with _ | t
                    · simp [htx]
                      exact msgContentString_ok mc
                    · cases t <;> simp [htx] <;>
                        first
                        | exact msgContentString_ok mc
                        | exact isOkE_ite rfl (msgContentString_ok mc)
                  · simp [hmt, isOkE]
              · simp [hm, isOkE]
    | null => simp [nullFree] at hcn
    | bool b => simp [isOkE]
    | num n => simp [isOkE]
    | str s => simp [isOkE]
    | obj kvs => simp [isOkE]

theorem ruleOutputText_ok (data : Json) : isOkE (ruleOutputText data) = true := by
  unfold ruleOutputText
  rcases hc : getF data "output_text" with _ | c
  · rfl
  · cases c <;> simp [isOkE]
    exact isOkE_ite rfl rfl

theorem ruleTextField_ok (data : Json) : isOkE (ruleTextField data) = true := by
  unfold ruleTextField
  rcases hc : getF data "text" with _ | c
  · rfl
  · cases c <;> simp [isOkE]
    exact isOkE_ite rfl rfl

theorem ruleCandidates_ok (data : Json) : isOkE (ruleCandidates data) = true := by
  unfold ruleCandidates
  rcases hc : getF data "candidates" with _ | c
  · rfl
  · cases c with
    | arr cs =>
        cases cs with
        | nil => simp [isOkE]
        | cons cand ct =>
            by_cases hca : truthy cand
            · simp only [hca, if_true]
              rcases hco : getF cand "content" with _ | cj
              · simp [isOkE]
              · by_cases hcj : truthy cj
                · simp only [hcj, if_true]
                  rcases hp : getF cj "parts" with _ | parts
                  · simp [isOkE]
                  · cases parts with
                    | arr ps =>
                        cases ps with
                        | nil => simp [isOkE]
                        | cons p0 pt =>
                            by_cases hp0 : truthy p0 <;> simp [hp0, isOkE]
                    | null => simp [isOkE]
                    | bool b => simp [isOkE]
                    | num n => simp [isOkE]
                    | str s => simp [isOkE]
                    | obj kvs => simp [isOkE]
                · simp [hcj, isOkE]
            · simp [hca, isOkE]
    | null => simp [isOkE]
    | bool b => simp [isOkE]
    | num n => simp [isOkE]
    | str s => simp [isOkE]
    | obj kvs => simp [isOkE]

theorem orE_ok {a b : Except Unit (Option Json)}
    (ha : isOkE a = true) (hb : isOkE b = true) : isOkE (orE a b) = true := by
  unfold orE
  rcases a with e | v
  · simp [isOkE] at ha
  · cases v
    · simpa using hb
    · simp [isOkE]

theorem extract_total {data : Json} (h : nullFree data = true) :
    isOkE (extractTextFromAnthropicResponse data) = true := by
  unfold extractTextFromAnthropicResponse
  by_cases ht : truthy data
  · simp only [ht, if_true]
    exact orE_ok (ruleCompletion_ok h)
      (orE_ok (ruleContent_ok h)
        (orE_ok (ruleMessages_ok h)
          (orE_ok (ruleOutputText_ok data)
            (orE_ok (ruleTextField_ok data) (ruleCandidates_ok data)))))
  · simp [ht, isOkE]

/-! ## Claim theorems -/

/-- C1: the response-text extraction resolves the given test envelopes as
specified — `{"completion":"hi"}` yields `"hi"`, `{"content":[{"text":"a"}]}`
yields `"a"`, `{"candidates":[{"content":{"parts":[{"text":"b"}]}}]}` yields
`"b"`, the empty envelope `{}` yields `""` without error — and whenever no
extraction pattern matches (the helper returns `null`), the generation
result's text is the empty string, never null or absent. -/
theorem c1_response_extraction (data : Json)
    (h : extractTextFromAnthropicResponse data = Except.ok none) :
    generatedText (Json.obj [("completion", Json.str "hi")]) = Except.ok (Json.str "hi")
  ∧ generatedText (Json.obj [("content", Json.arr [Json.obj [("text", Json.str "a")]])])
      = Except.ok (Json.str "a")
  ∧ generatedText (Json.obj [("candidates", Json.arr
      [Json.obj [("content", Json.obj
        [("parts", Json.arr [Json.obj [("text", Json.str "b")]])])]])])
      = Except.ok (Json.str "b")
  ∧ generatedText (Json.obj []) = Except.ok (Json.str "")
  ∧ generatedText data = Except.ok (Json.str "") := by
  refine ⟨rfl, rfl, rfl, rfl, ?_⟩
  unfold generatedText
  rw [h]

/-- C1 witness: the theorem applied at the empty envelope, whose
extraction concretely returns `null`. -/
theorem c1_response_extraction_witness :
    generatedText (Json.obj [("completion", Json.str "hi")]) = Except.ok (Json.str "hi")
  ∧ generatedText (Json.obj [("content", Json.arr [Json.obj [("text", Json.str "a")]])])
      = Except.ok (Json.str "a")
  ∧ generatedText (Json.obj [("candidates", Json.arr
      [Json.obj [("content", Json.obj
        [("parts", Json.arr [Json.obj [("text", Json.str "b")]])])]])])
      = Except.ok (Json.str "b")
  ∧ generatedText (Json.obj []) = Except.ok (Json.str "")
  ∧ generatedText (Json.obj []) = Except.ok (Json.str "") :=
  c1_response_extraction (Json.obj []) rfl

/-- C2 (code bug): the source performs a SELECT followed by a separate
INSERT (server.js lines 199-215, with no ON CONFLICT clause), not a
single atomic conditional upsert.  Run serially, two reconciliations of
the fresh subject `"sub-1"` leave one row; but the interleaving in which
both SELECT steps run before either write — legal, because the source
issues them as two separate store calls — leaves two rows for the same
subject, contradicting the claimed "exactly one created row". -/
theorem c2_reconcile_race :
    (selectUsers (serialReconcile demoClaims 5 []) "sub-1").length = 1
  ∧ (selectUsers (interleavedReconcile demoClaims 5 []) "sub-1").length = 2 :=
  ⟨rfl, rfl⟩

/-- C3 counterexample: a failing 429 response whose decoded body is the
decodable JSON `null` does not produce the RateLimited mapping — the
`data.error` access of part_000 line 213 throws first, so the route's
catch returns the 500 internal error instead of the mapped response. -/
theorem c3_null_body_throws :
    handleProviderErr 429 Json.null = Except.error ()
  ∧ handleProviderErr 429 Json.null
      ≠ Except.ok (providerFailureResponse ProviderFailure.RateLimited) := by
  constructor
  · rfl
  · intro h
    rw [show handleProviderErr 429 Json.null = Except.error () from rfl] at h
    exact Except.noConfusion h

/-- C3 amended: for every failing provider HTTP status whose decoded
body is not JSON `null`, part_000 lines 208-229 map 429 to `RateLimited`
(HTTP 429), 401 to `ProviderAuthError` — re-emitted as an HTTP 500, a
configuration defect rather than a caller-caused 4xx — 400 to
`InvalidRequest`, and every other status to `ProviderError` carrying the
provider's `error.message` payload; the source's response chain
(`handleProviderErr`) coincides with the serialization of this typed
classification.  A `null` body instead throws at line 213 and surfaces
as the catch-all 500. -/
theorem c3_amended_status_mapping (status : Nat) (data : Json)
    (_hfail : claudeOk status = false) (hd : data ≠ Json.null) :
    mapProviderStatus 429 (getF data "error") = ProviderFailure.RateLimited
  ∧ mapProviderStatus 401 (getF data "error") = ProviderFailure.ProviderAuthError
  ∧ mapProviderStatus 400 (getF data "error") = ProviderFailure.InvalidRequest
  ∧ (status ≠ 429 → status ≠ 401 → status ≠ 400 →
      mapProviderStatus status (getF data "error")
        = ProviderFailure.ProviderError status (providerErrMsg (getF data "error")))
  ∧ handleProviderErr status data
      = Except.ok (providerFailureResponse (mapProviderStatus status (getF data "error")))
  ∧ (providerFailureResponse ProviderFailure.ProviderAuthError).1 = 500 := by
  refine ⟨rfl, rfl, rfl, ?_, ?_, rfl⟩
  · intro h1 h2 h3
    simp [mapProviderStatus, h1, h2, h3]
  · unfold handleProviderErr
    rw [getFx_of_ne "error" hd]
    by_cases h1 : status = 429
    · simp [mapProviderStatus, providerFailureResponse, h1]
    · by_cases h2 : status = 401
      · simp [mapProviderStatus, providerFailureResponse, h1, h2]
      · by_cases h3 : status = 400 <;>
          simp [mapProviderStatus, providerFailureResponse, h1, h2, h3]

/-- C3 witness: the amended theorem applied at the failing status 503
with an empty (non-null) provider body. -/
theorem c3_amended_status_mapping_witness :
    mapProviderStatus 429 (getF (Json.obj []) "error") = ProviderFailure.RateLimited
  ∧ mapProviderStatus 401 (getF (Json.obj []) "error") = ProviderFailure.ProviderAuthError
  ∧ mapProviderStatus 400 (getF (Json.obj []) "error") = ProviderFailure.InvalidRequest
  ∧ ((503 : Nat) ≠ 429 → (503 : Nat) ≠ 401 → (503 : Nat) ≠ 400 →
      mapProviderStatus 503 (getF (Json.obj []) "error")
        = ProviderFailure.ProviderError 503 (providerErrMsg (getF (Json.obj []) "error")))
  ∧ handleProviderErr 503 (Json.obj [])
      = Except.ok (providerFailureResponse
          (mapProviderStatus 503 (getF (Json.obj []) "error")))
  ∧ (providerFailureResponse ProviderFailure.ProviderAuthError).1 = 500 :=
  c3_amended_status_mapping 503 (Json.obj []) rfl
    (fun h => Json.noConfusion h)

/-- C4 counterexample: the tier value `"constructor"` is not in the
static table, yet it does not fall back to the default — the JavaScript
bracket lookup `modelMap['constructor']` hits the truthy inherited
`Object.prototype.constructor`, so `|| modelMap['haiku']` never runs,
and likewise for the token limit. -/
theorem c4_proto_member_not_fallback :
    selectedModel (some "constructor") = JsLookupResult.protoMember "constructor"
  ∧ selectedModel (some "constructor")
      ≠ JsLookupResult.ownValue "claude-3-5-haiku-20241022"
  ∧ selectedMaxTokens (some "constructor") = JsLookupResult.protoMember "constructor"
  ∧ selectedMaxTokens (some "constructor") ≠ JsLookupResult.ownValue 2048 := by
  refine ⟨rfl, ?_, rfl, ?_⟩ <;> decide

/-- C4 amended: a tier value that is absent, or that is neither a key of
the static table nor the name of an inherited `Object.prototype` member,
selects the default `haiku` model identifier and token limit rather than
failing, and every tier in the table selects its own model identifier
and token limit (part_000 lines 161-184).  Tier values naming
`Object.prototype` members (`"constructor"`, `"toString"`, ...) instead
hit the truthy inherited member and defeat the fallback. -/
theorem c4_amended_tier_fallback (t : String)
    (h1 : t ≠ "haiku") (h2 : t ≠ "sonnet") (h3 : t ≠ "haiku-legacy")
    (h4 : objectPrototypeKeys.contains t = false) :
    selectedModel (some t) = JsLookupResult.ownValue "claude-3-5-haiku-20241022"
  ∧ selectedMaxTokens (some t) = JsLookupResult.ownValue 2048
  ∧ selectedModel none = JsLookupResult.ownValue "claude-3-5-haiku-20241022"
  ∧ selectedMaxTokens none = JsLookupResult.ownValue 2048
  ∧ selectedModel (some "haiku") = JsLookupResult.ownValue "claude-3-5-haiku-20241022"
  ∧ selectedMaxTokens (some "haiku") = JsLookupResult.ownValue 2048
  ∧ selectedModel (some "sonnet") = JsLookupResult.ownValue "claude-3-5-sonnet-20241022"
  ∧ selectedMaxTokens (some "sonnet") = JsLookupResult.ownValue 4096
  ∧ selectedModel (some "haiku-legacy") = JsLookupResult.ownValue "claude-3-haiku-20240307"
  ∧ selectedMaxTokens (some "haiku-legacy") = JsLookupResult.ownValue 1024 := by
  have b1 : (t == "haiku") = false := by simpa using h1
  have b2 : (t == "sonnet") = false := by simpa using h2
  have b3 : (t == "haiku-legacy") = false := by simpa using h3
  have h4m : t ∉ objectPrototypeKeys := by simpa using h4
  refine ⟨?_, ?_, rfl, rfl, rfl, rfl, rfl, rfl, rfl, rfl⟩ <;>
    · by_cases h0 : t = ""
      · subst h0; rfl
      · simp [selectedModel, selectedMaxTokens, requestedModel, jsObjLookup,
          orDefault, modelMap, maxTokensMap, List.lookup, h0, b1, b2, b3, h4m]

/-- C4 witness: the amended theorem applied at the unknown,
non-prototype tier `"turbo"`. -/
theorem c4_amended_tier_fallback_witness :
    selectedModel (some "turbo") = JsLookupResult.ownValue "claude-3-5-haiku-20241022"
  ∧ selectedMaxTokens (some "turbo") = JsLookupResult.ownValue 2048
  ∧ selectedModel none = JsLookupResult.ownValue "claude-3-5-haiku-20241022"
  ∧ selectedMaxTokens none = JsLookupResult.ownValue 2048
  ∧ selectedModel (some "haiku") = JsLookupResult.ownValue "claude-3-5-haiku-20241022"
  ∧ selectedMaxTokens (some "haiku") = JsLookupResult.ownValue 2048
  ∧ selectedModel (some "sonnet") = JsLookupResult.ownValue "claude-3-5-sonnet-20241022"
  ∧ selectedMaxTokens (some "sonnet") = JsLookupResult.ownValue 4096
  ∧ selectedModel (some "haiku-legacy") = JsLookupResult.ownValue "claude-3-haiku-20240307"
  ∧ selectedMaxTokens (some "haiku-legacy") = JsLookupResult.ownValue 1024 :=
  c4_amended_tier_fallback "turbo" (by decide) (by decide) (by decide) (by decide)

/-- C5 counterexample: a whitespace-only prompt (`" "`) passes the
validation of part_000 lines 149-167 — it is truthy and within the
length bound — so the provider transport IS invoked (one network call),
contradicting the claim that whitespace-only prompts are rejected before
any network call. -/
theorem c5_whitespace_reaches_provider :
    geminiValidate (mkPromptEnv " ") = Except.ok (Json.str " ")
  ∧ networkCalls (mkPromptEnv " ") = 1 :=
  ⟨rfl, rfl⟩

/-- C5 amended: a prompt that is empty (length 0, hence falsy) and a
prompt exceeding the 100000-character bound are each rejected with a 400
before any network call (zero transport invocations); whitespace-only
non-empty prompts are not rejected. -/
theorem c5_amended_validation (s : String) (h : 100000 < s.length) :
    geminiValidate (mkPromptEnv "") = Except.error invalidStructureResponse
  ∧ networkCalls (mkPromptEnv "") = 0
  ∧ geminiValidate (mkPromptEnv s) = Except.error promptTooLongResponse
  ∧ networkCalls (mkPromptEnv s) = 0 := by
  have hne : s ≠ "" := by
    intro e
    subst e
    simp [String.length] at h
  have hb : (s != "") = true := by simpa using hne
  have hgp : geminiExtractPrompt (mkPromptEnv s)
      = if (!(s != "")) = true then Except.error invalidStructureResponse
        else Except.ok (Json.str s) := rfl
  have hlen : jsLengthGt (Json.str s) 100000 = true := by
    simp [jsLengthGt]
    exact h
  have hv : geminiValidate (mkPromptEnv s) = Except.error promptTooLongResponse := by
    unfold geminiValidate
    rw [hgp, hb]
    simp [hlen]
  refine ⟨rfl, rfl, hv, ?_⟩
  simp [networkCalls, hv]

/-- C5 witness: the theorem applied at the concrete 100001-character
prompt `bigPrompt`. -/
theorem c5_amended_validation_witness :
    geminiValidate (mkPromptEnv "") = Except.error invalidStructureResponse
  ∧ networkCalls (mkPromptEnv "") = 0
  ∧ geminiValidate (mkPromptEnv bigPrompt) = Except.error promptTooLongResponse
  ∧ networkCalls (mkPromptEnv bigPrompt) = 0 :=
  c5_amended_validation bigPrompt (by
    have hl : bigPrompt.length = 100001 := by
      have hd : bigPrompt.data.length = 100001 := by
        show (List.replicate 100001 'a').length = 100001
        rw [List.length_replicate]
      rw [String.length_data] at hd
      exact hd
    rw [hl]
    norm_num)

/-- C6 counterexample: the decodable envelope `{"content":[null]}` makes
the extraction helper raise (server.js line 144 evaluates
`data.content[0].text` and `content[0]` is `null`), refuting "a rule
that would require accessing a missing field does not raise". -/
theorem c6_extraction_throws :
    extractTextFromAnthropicResponse (Json.obj [("content", Json.arr [Json.null])])
      = Except.error () := rfl

/-- C6 amended: the rules are tried in the specified priority order, and
on every envelope containing no JSON `null` the extraction returns
without raising; but a matched rule can yield an empty string which
still preempts later rules — on `preemptEnv`,
`completion.content[0].text = ""` wins over the non-empty top-level
`text` key, so "the first rule that yields a non-empty string determines
the result" does not hold either. -/
theorem c6_amended_totality (data : Json) (h : nullFree data = true) :
    isOkE (extractTextFromAnthropicResponse data) = true
  ∧ extractTextFromAnthropicResponse preemptEnv = Except.ok (some (Json.str ""))
  ∧ generatedText preemptEnv = Except.ok (Json.str "") :=
  ⟨extract_total h, rfl, rfl⟩

/-- C6 witness: the theorem applied at the null-free empty envelope. -/
theorem c6_amended_totality_witness :
    isOkE (extractTextFromAnthropicResponse (Json.obj [])) = true
  ∧ extractTextFromAnthropicResponse preemptEnv = Except.ok (some (Json.str ""))
  ∧ generatedText preemptEnv = Except.ok (Json.str "") :=
  c6_amended_totality (Json.obj []) rfl

/-- C7: the UPDATE of a returning user's row changes only `last_login`,
`full_name` and `picture_url`: the projection to
(`email`, `given_name`, `family_name`, `locale`, `created_at`) of every
row of the table is unchanged, and the matching row is replaced by
exactly the row with the three refreshed fields. -/
theorem c7_update_frame (db : List UserRow) (g : String) (now : Nat)
    (fn pu : String) (r : UserRow) (hr : r ∈ db) (hg : r.google_id = g) :
    (updateUser db g now fn pu).map frameProj = db.map frameProj
  ∧ { r with last_login := now, full_name := fn, picture_url := pu }
      ∈ updateUser db g now fn pu := by
  constructor
  · unfold updateUser
    rw [List.map_map]
    apply List.map_congr_left
    intro a _
    by_cases ha : a.google_id = g
    · simp [ha, frameProj]
    · simp [ha, frameProj]
  · unfold updateUser
    have he : (fun r0 : UserRow =>
        if r0.google_id == g then
          { r0 with last_login := now, full_name := fn, picture_url := pu }
        else r0) r
        = { r with last_login := now, full_name := fn, picture_url := pu } := by
      simp [hg]
    exact he ▸ List.mem_map_of_mem _ hr

/-- C7 witness: the theorem applied at a one-row table holding
`demoRow`. -/
theorem c7_update_frame_witness :
    (updateUser [demoRow] "sub-1" 9 "N" "P").map frameProj = [demoRow].map frameProj
  ∧ { demoRow with last_login := 9, full_name := "N", picture_url := "P" }
      ∈ updateUser [demoRow] "sub-1" 9 "N" "P" :=
  c7_update_frame [demoRow] "sub-1" 9 "N" "P" demoRow (by simp) rfl

/-- C8: for every assertion whose validity window has passed (and which
would otherwise parse and carry a trusted issuer), reconciliation yields
the typed failure `ExpiredToken`, the table is unchanged, and no store
operation at all is performed. -/
theorem c8_expired_no_mutation (a : Assertion) (now : Nat) (aud : String)
    (db : List UserRow) (h1 : a.wellFormed = true) (h2 : a.issuerTrusted = true)
    (h3 : a.expiry < now) :
    authGoogle a now aud db = (Except.error VerifyFailure.ExpiredToken, db, []) := by
  unfold authGoogle verifyIdToken
  simp [h1, h2, h3]

/-- C8 witness: the theorem applied at `demoAssertion` (expiry 3) at
time 7. -/
theorem c8_expired_no_mutation_witness :
    authGoogle demoAssertion 7 "client-1" []
      = (Except.error VerifyFailure.ExpiredToken, [], []) :=
  c8_expired_no_mutation demoAssertion 7 "client-1" [] rfl rfl (by decide)

/-- C9 counterexample: an undecodable provider body does not yield the
`ProviderProtocolError` 502 of server.js line 300 — that branch is
unreachable, because the second body read `claudeResp.text()` at line
298 throws after `claudeResp.json()` consumed the body, and the outer
catch returns the 500 internal error instead (status 500, not 502). -/
theorem c9_dead_protocol_branch :
    handleClaudeResponse true none = (internalErrorResponse, false)
  ∧ (handleClaudeResponse true none).1.1 = 500
  ∧ protocolErrorResponse.1 = 502 :=
  ⟨rfl, rfl, rfl⟩

/-- C9 amended: whatever the provider HTTP status, a body that cannot be
decoded as structured data never reaches the text-extraction helper, but
the failure surfaces as the endpoint's catch-all 500
(`"Internal server error while contacting AI model."`), not as the
protocol-error 502 — the decode-failure handler's second body read
throws before line 300 can respond. -/
theorem c9_amended_undecodable (respOk : Bool) :
    handleClaudeResponse respOk none = (internalErrorResponse, false) := rfl

/-- C10: in every successful response of the generation endpoint, the
top-level `text` field and the nested `candidates[0].content.parts[0].text`
field hold the same extracted string. -/
theorem c10_text_fields_agree (g raw : Json) :
    getF (buildGeminiResponse g raw) "text" = some g
  ∧ (((((getF (buildGeminiResponse g raw) "candidates").bind jsHead).bind
        (fun c => getF c "content")).bind (fun c => getF c "parts")).bind jsHead).bind
      (fun p => getF p "text") = some g :=
  ⟨rfl, rfl⟩

end RoftX
